import Mathlib

/-!
Shallow embedding of the core monitoring / opportunity-detection logic of
`src/bot.py` (class `RustSkinTelegramBot`), together with theorems checking
the natural-language specification against it.

Conventions of the embedding:
* Timestamps are integers (seconds); `datetime.utcnow()` is an explicit
  parameter `now`; `timedelta(days=d)` is `d * 86400` seconds.
* A Python string field that may be `None` or empty (falsy) is modelled so
  that the falsy test of the source is explicit.
* HTTP calls are oracles passed in as data: a response is either a 200 with
  a parsed body, a non-200 status code, or a raised transport error.
* SQLite tables that merely mirror in-memory state (`creators`,
  `processed_skins`, `user_sessions`) are represented by the in-memory
  state the code actually consults (`self.known_creators`,
  `session['processed_skins']`, the session dict); the append-only
  `purchases` table is represented by the list of rows inserted.
-/

namespace RustSkinBot

/-- Result of one HTTP request in the source (`requests.get`):
`ok body` is a 200 response with parsed JSON body `body`;
`status c` is a non-200 response with status code `c`;
`transportError` is a raised exception (timeout, connection error, ...). -/
inductive HttpResult (α : Type) where
  | ok (body : α)
  | status (code : Nat)
  | transportError
deriving DecidableEq, Repr

/-- A timestamp string field of an item, as the source sees it:
`absent` is `None` or the empty string (falsy in Python);
`junk` is a non-empty string `datetime.fromisoformat` raises on;
`valid t` is a string parsing to time `t` (seconds, naive UTC). -/
inductive TimeStr where
  | absent
  | junk
  | valid (t : Int)
deriving DecidableEq, Repr

/-- Python `a or b` on two timestamp strings: `a` unless `a` is falsy. -/
def TimeStr.orElse (a b : TimeStr) : TimeStr :=
  match a with
  | .absent => b
  | x => x

/-- Embeds `RustSkinTelegramBot.is_recent_item` (src/bot.py:1180-1216).
Uses `timeAccepted` if truthy else `timeCreated`; no timestamp or a parse
failure returns `False`; otherwise accepts iff
`current_time - item_time <= timedelta(days=max_age_days)` (inclusive). -/
def is_recent_item (time_accepted time_created : TimeStr) (max_age_days : Nat)
    (now : Int) : Bool :=
  match time_accepted.orElse time_created with
  | .absent => false
  | .junk => false
  | .valid t => now - t ≤ (max_age_days : Int) * 86400

/-- Embeds `RustSkinTelegramBot.add_creator_to_db` (src/bot.py:1720-1729), restricted
to its effect on the state the evaluator consults: `INSERT OR REPLACE` into
the `creators` table mirrored by `self.known_creators.add(creator_id)`.
The `creator_name` and `skin_count` arguments only affect the mirrored row,
never the membership set. -/
def add_creator_to_db (creator_id : String) (_creator_name : String)
    (_skin_count : Nat) (known_creators : List String) : List String :=
  if creator_id ∈ known_creators then known_creators
  else creator_id :: known_creators

/-- The pair of remote lookups `is_first_time_creator` can make:
`GET /profile/{id}/summary` and `GET /item?creatorId=id&count=100`
(the latter's body reduced to its `total` field, defaulted to 0). -/
structure CreatorLookup where
  profileResp : HttpResult Unit
  itemCountResp : HttpResult Nat
deriving DecidableEq, Repr

/-- Embeds `RustSkinTelegramBot.is_first_time_creator` (src/bot.py:1666-1718).
Returns the boolean verdict and the updated `known_creators` set
(the only mutation is `add_creator_to_db` on the `total_items > 1` branch).
Any non-200/404 profile status, any non-200 item-count status, and any
raised exception all return `True` (fail open); a cached creator returns
`False` without any network call. -/
def is_first_time_creator (known_creators : List String) (creator_id : String)
    (creator_name : String) (lookup : CreatorLookup) : Bool × List String :=
  if creator_id ∈ known_creators then
    (false, known_creators)
  else
    match lookup.profileResp with
    | .ok _ =>
      match lookup.itemCountResp with
      | .ok total_items =>
        if total_items > 1 then
          (false, add_creator_to_db creator_id creator_name total_items known_creators)
        else
          (decide (total_items ≤ 1), known_creators)
      | .status _ => (true, known_creators)
      | .transportError => (true, known_creators)
    | .status code =>
      -- 404 and every other non-200 status both return True in the source
      if code == 404 then (true, known_creators) else (true, known_creators)
    | .transportError => (true, known_creators)

/-- Python truthiness of `session['steam_session_token']`:
`None` and the empty string are falsy. -/
def tokenTruthy : Option String → Bool
  | none => false
  | some t => !(t == "")

/-- One user's session dict (src/bot.py:117-166, `get_user_session`),
restricted to the fields the monitoring core reads and writes. -/
structure Session where
  steam_session_token : Option String
  is_monitoring : Bool
  purchased_count : Nat
  max_purchases : Nat
  auto_purchase : Bool
  max_price_cents : Nat
  max_item_age_days : Nat
  test_mode : Bool
  processed_skins : List String
deriving DecidableEq, Repr

/-- The default session created on first interaction (src/bot.py:145-157). -/
def defaultSession : Session where
  steam_session_token := none
  is_monitoring := false
  purchased_count := 0
  max_purchases := 10
  auto_purchase := true
  max_price_cents := 1000
  max_item_age_days := 3
  test_mode := false
  processed_skins := []

/-- One marketplace item as the evaluator reads it from the feed JSON.
`id` is `str(item.get('id', ''))`, so a missing id is the empty string;
`creatorId` is `none` when `item_data.get('creatorId')` is falsy;
`marketSellOrderLowestPrice` defaults to 0 when missing. -/
structure Item where
  id : String
  creatorId : Option String
  creatorName : String
  name : String
  isAccepted : Bool
  timeAccepted : TimeStr
  timeCreated : TimeStr
  marketSellOrderLowestPrice : Nat
deriving DecidableEq, Repr

/-- Behaviour of one call to the external purchase collaborator
`attempt_steam_purchase`: it either returns a result dict whose
`'success'` field is the given boolean, or raises (caught at
src/bot.py:1294-1296 and mapped to a failure outcome). -/
inductive PurchaseAttempt where
  | returns (success : Bool)
  | throws
deriving DecidableEq, Repr

/-- The external world consulted while evaluating one item: the creator
profile/item-count lookups and the purchase collaborator's behaviour. -/
structure ItemEnv where
  lookup : CreatorLookup
  purchase : PurchaseAttempt
deriving DecidableEq, Repr

/-- One row inserted into the `purchases` table (src/bot.py:1340-1355),
restricted to the fields the specification speaks about. -/
structure PurchaseRow where
  skin_id : String
  creator_id : String
  success : Bool
deriving DecidableEq, Repr

/-- The state one user's monitoring touches: the user's session, the global
`known_creators` set, the append-only `purchases` table, a count of
`send_user_message` calls, and a count of calls to the real purchase
collaborator `attempt_steam_purchase` (a call-count test double). -/
structure BotState where
  session : Session
  known_creators : List String
  purchases : List PurchaseRow
  messages_sent : Nat
  purchase_calls : Nat
deriving DecidableEq, Repr

/-- The live-mode auto-purchase gate of `record_opportunity_for_user`
(src/bot.py:1275-1278): `auto_purchase and steam_session_token and
market_price > 0 and market_price <= max_price_cents`. -/
def purchase_gate (s : Session) (market_price : Nat) : Bool :=
  s.auto_purchase && tokenTruthy s.steam_session_token
    && decide (0 < market_price) && decide (market_price ≤ s.max_price_cents)

/-- The `purchase_success` flag after one call of the purchase collaborator
(src/bot.py:1280-1296): `purchase_result['success']` when it returns, and
`False` when it raises (the except branch keeps the initial `False`). -/
def purchaseSuccessOf : PurchaseAttempt → Bool
  | .returns b => b
  | .throws => false

/-- Embeds `RustSkinTelegramBot.record_opportunity_for_user` (src/bot.py:1218-1358).
Unconditionally adds the creator to the global database/set (line 1225) and
increments `purchased_count` (lines 1228-1229); in test mode sets
`purchase_success = False` without calling the purchase collaborator
(lines 1255-1268); in live mode calls `attempt_steam_purchase` exactly when
the `purchase_gate` holds (lines 1275-1296); always sends one message and
inserts one `purchases` row carrying `purchase_success` (lines 1337-1355). -/
def record_opportunity_for_user (st : BotState) (item : Item)
    (creator_id creator_name : String) (env : ItemEnv) : BotState :=
  let known := add_creator_to_db creator_id creator_name 1 st.known_creators
  let s := { st.session with purchased_count := st.session.purchased_count + 1 }
  let market_price := item.marketSellOrderLowestPrice
  if s.test_mode then
    { st with
      session := s
      known_creators := known
      messages_sent := st.messages_sent + 1
      purchases := st.purchases ++ [⟨item.id, creator_id, false⟩] }
  else if purchase_gate s market_price then
    { st with
      session := s
      known_creators := known
      purchase_calls := st.purchase_calls + 1
      messages_sent := st.messages_sent + 1
      purchases := st.purchases ++ [⟨item.id, creator_id, purchaseSuccessOf env.purchase⟩] }
  else
    { st with
      session := s
      known_creators := known
      messages_sent := st.messages_sent + 1
      purchases := st.purchases ++ [⟨item.id, creator_id, false⟩] }

/-- Embeds `RustSkinTelegramBot.process_item_for_user` (src/bot.py:1137-1178):
reject non-accepted items, then stale items, then items with a falsy
creator id; then consult `is_first_time_creator` and on a first-time
verdict call `record_opportunity_for_user`. -/
def process_item_for_user (st : BotState) (item : Item) (env : ItemEnv)
    (now : Int) : BotState :=
  if !item.isAccepted then st
  else if !is_recent_item item.timeAccepted item.timeCreated
      st.session.max_item_age_days now then st
  else
    match item.creatorId with
    | none => st
    | some creator_id =>
      let r := is_first_time_creator st.known_creators creator_id
        item.creatorName env.lookup
      let st1 := { st with known_creators := r.2 }
      if r.1 then
        record_opportunity_for_user st1 item creator_id item.creatorName env
      else st1

/-- The dedup marking at src/bot.py:1114-1123: add the item id to the
session's `processed_skins` set (mirrored to the `processed_skins` table). -/
def markProcessed (st : BotState) (item_id : String) : BotState :=
  { st with session :=
      { st.session with processed_skins := item_id :: st.session.processed_skins } }

/-- The per-item for-loop of `check_new_skins_for_user`
(src/bot.py:1112-1129): for each item with a truthy id not yet in
`processed_skins`, first mark it processed, then evaluate it, and break
out of the batch once `purchased_count >= max_purchases`. -/
def check_items (now : Int) : List (Item × ItemEnv) → BotState → BotState
  | [], st => st
  | (item, env) :: rest, st =>
    if item.id ≠ "" ∧ item.id ∉ st.session.processed_skins then
      let st1 := process_item_for_user (markProcessed st item.id) item env now
      if st1.session.max_purchases ≤ st1.session.purchased_count then st1
      else check_items now rest st1
    else check_items now rest st

/-- Embeds `RustSkinTelegramBot.check_new_skins_for_user` (src/bot.py:1091-1135):
a non-200 feed response does nothing, a raised exception is caught
(line 1134) and does nothing, a 200 response runs the per-item loop. -/
def check_new_skins_for_user (now : Int)
    (feed : HttpResult (List (Item × ItemEnv))) (st : BotState) : BotState :=
  match feed with
  | .ok items => check_items now items st
  | .status _ => st
  | .transportError => st

/-- The while-loop of `RustSkinTelegramBot.monitor_user_skins`
(src/bot.py:1069-1071): while `is_monitoring` and
`purchased_count < max_purchases`, run one feed check then sleep.
`fuel` bounds the number of ticks; `now`/`feed` give each tick's clock
and feed response. -/
def monitor_loop (now : Nat → Int)
    (feed : Nat → HttpResult (List (Item × ItemEnv))) :
    Nat → BotState → BotState
  | 0, st => st
  | fuel + 1, st =>
    if st.session.is_monitoring = true ∧
        st.session.purchased_count < st.session.max_purchases then
      monitor_loop now feed fuel
        (check_new_skins_for_user (now fuel) (feed fuel) st)
    else st

/-- How one run of the monitor-loop task ended: the while condition became
false (user stop or quota), the task was cancelled
(`asyncio.CancelledError`), or an unhandled exception with text `msg`. -/
inductive LoopExit where
  | normalStop
  | cancelled
  | error (msg : String)
deriving DecidableEq, Repr

/-- The except/finally teardown of `monitor_user_skins`
(src/bot.py:1072-1087): an unhandled error first notifies the user with
the error text; the `finally` block always resets `is_monitoring`; then,
when the quota is reached, a distinct completion message is sent. The
function returns once — the loop is not restarted. -/
def monitor_teardown (exitCause : LoopExit) (s : Session) :
    Session × List String :=
  let msgs : List String :=
    match exitCause with
    | .error m => ["Monitoring error: " ++ m ++ "\nTry restarting with /monitor"]
    | _ => []
  let s1 := { s with is_monitoring := false }
  let msgs1 :=
    if s.max_purchases ≤ s.purchased_count then
      msgs ++ ["Found " ++ toString s.max_purchases ++
        " opportunities! Monitoring stopped. Use /reset to find more!"]
    else msgs
  (s1, msgs1)

/-- Outcome of a start request: a rejection reply (no task spawned, no
session change), or a transition to monitoring with exactly one
`asyncio.create_task` spawned, carrying the updated session. -/
inductive StartResult where
  | rejectedNoToken
  | rejectedAlreadyMonitoring
  | rejectedQuotaExhausted
  | started (s : Session)
deriving DecidableEq, Repr

/-- Embeds `RustSkinTelegramBot.start_monitoring_command` — the `/monitor` command
(src/bot.py:472-509). Checks, in order: missing token (unconditionally,
with no test-mode exemption), already monitoring, quota exhausted; else
sets `is_monitoring` and spawns one monitoring task. -/
def start_monitoring_command (s : Session) : StartResult :=
  if !(tokenTruthy s.steam_session_token) then .rejectedNoToken
  else if s.is_monitoring then .rejectedAlreadyMonitoring
  else if s.max_purchases ≤ s.purchased_count then .rejectedQuotaExhausted
  else .started { s with is_monitoring := true }

/-- Embeds `RustSkinTelegramBot.start_monitoring_inline` — the ▶️ button
(src/bot.py:916-964). Same as the command except the token check is
skipped in test mode (line 922). -/
def start_monitoring_inline (s : Session) : StartResult :=
  if !s.test_mode && !(tokenTruthy s.steam_session_token) then .rejectedNoToken
  else if s.is_monitoring then .rejectedAlreadyMonitoring
  else if s.max_purchases ≤ s.purchased_count then .rejectedQuotaExhausted
  else .started { s with is_monitoring := true }

/-! ### Concrete fixtures used to evaluate the definitions -/

/-- A concrete accepted item from creator `"777"`, fresh at time 0. -/
def sampleItem : Item where
  id := "101"
  creatorId := some "777"
  creatorName := "Ann"
  name := "Skin A"
  isAccepted := true
  timeAccepted := .valid 0
  timeCreated := .absent
  marketSellOrderLowestPrice := 500

/-- A concrete evaluation environment: profile lookup answers 404, the
item-count lookup would raise, the purchase collaborator would succeed. -/
def sampleEnv : ItemEnv where
  lookup := { profileResp := .status 404, itemCountResp := .transportError }
  purchase := .returns true

/-- A fresh bot state for a test-mode user. -/
def testModeState : BotState where
  session := { defaultSession with test_mode := true }
  known_creators := []
  purchases := []
  messages_sent := 0
  purchase_calls := 0

/-- A fresh bot state for a user with default settings. -/
def initState : BotState where
  session := defaultSession
  known_creators := []
  purchases := []
  messages_sent := 0
  purchase_calls := 0

/-- A bot state whose user has already processed item `"101"`. -/
def processedState : BotState where
  session := { defaultSession with processed_skins := ["101"] }
  known_creators := []
  purchases := []
  messages_sent := 0
  purchase_calls := 0

/-- Whether a start request spawned the monitoring task. -/
def StartResult.isStarted : StartResult → Bool
  | .started _ => true
  | _ => false

/-! ### Helper lemmas shared by the claim theorems -/

theorem mem_add_creator_to_db (cid2 cid name : String) (n : Nat)
    (known : List String) (h : cid2 ∈ known) :
    cid2 ∈ add_creator_to_db cid name n known := by
  unfold add_creator_to_db
  split
  · exact h
  · exact List.mem_cons_of_mem _ h

theorem self_mem_add_creator_to_db (cid name : String) (n : Nat)
    (known : List String) : cid ∈ add_creator_to_db cid name n known := by
  unfold add_creator_to_db
  split <;> simp_all

theorem is_first_time_creator_of_mem (known : List String)
    (cid name : String) (lk : CreatorLookup) (h : cid ∈ known) :
    is_first_time_creator known cid name lk = (false, known) := by
  unfold is_first_time_creator
  simp [h]

theorem is_first_time_creator_snd_mono (known : List String)
    (cid2 cid name : String) (lk : CreatorLookup) (h : cid2 ∈ known) :
    cid2 ∈ (is_first_time_creator known cid name lk).2 := by
  unfold is_first_time_creator
  split
  · exact h
  · rcases lk with ⟨p, i⟩
    cases p with
    | ok b =>
      cases i with
      | ok n =>
        dsimp only
        split
        · exact mem_add_creator_to_db cid2 cid name n known h
        · exact h
      | status c => exact h
      | transportError => exact h
    | status c =>
      dsimp only
      split <;> exact h
    | transportError => exact h

theorem record_opportunity_session_eq (st : BotState) (item : Item)
    (cid name : String) (env : ItemEnv) :
    (record_opportunity_for_user st item cid name env).session
      = { st.session with purchased_count := st.session.purchased_count + 1 } := by
  simp only [record_opportunity_for_user]
  split
  · rfl
  split <;> rfl

theorem record_opportunity_known_eq (st : BotState) (item : Item)
    (cid name : String) (env : ItemEnv) :
    (record_opportunity_for_user st item cid name env).known_creators
      = add_creator_to_db cid name 1 st.known_creators := by
  simp only [record_opportunity_for_user]
  split
  · rfl
  split <;> rfl

theorem process_item_session_cases (st : BotState) (item : Item)
    (env : ItemEnv) (now : Int) :
    (process_item_for_user st item env now).session = st.session ∨
    (process_item_for_user st item env now).session
      = { st.session with purchased_count := st.session.purchased_count + 1 } := by
  simp only [process_item_for_user]
  split
  · exact Or.inl rfl
  split
  · exact Or.inl rfl
  split
  · exact Or.inl rfl
  split
  · exact Or.inr (record_opportunity_session_eq _ _ _ _ _)
  · exact Or.inl rfl

theorem process_item_known_mono (st : BotState) (item : Item)
    (env : ItemEnv) (now : Int) (cid : String) (h : cid ∈ st.known_creators) :
    cid ∈ (process_item_for_user st item env now).known_creators := by
  simp only [process_item_for_user]
  split
  · exact h
  split
  · exact h
  split
  · exact h
  split
  · rw [record_opportunity_known_eq]
    exact mem_add_creator_to_db _ _ _ _ _
      (is_first_time_creator_snd_mono _ _ _ _ _ h)
  · exact is_first_time_creator_snd_mono _ _ _ _ _ h

theorem check_items_known_mono (now : Int) (items : List (Item × ItemEnv)) :
    ∀ st : BotState, ∀ cid ∈ st.known_creators,
      cid ∈ (check_items now items st).known_creators := by
  induction items with
  | nil => intro st cid h; exact h
  | cons hd tl ih =>
    intro st cid h
    obtain ⟨item, env⟩ := hd
    simp only [check_items]
    split
    · split
      · exact process_item_known_mono _ _ _ _ _ h
      · exact ih _ _ (process_item_known_mono _ _ _ _ _ h)
    · exact ih _ _ h

theorem check_new_skins_known_mono (now : Int)
    (feed : HttpResult (List (Item × ItemEnv))) (st : BotState)
    (cid : String) (h : cid ∈ st.known_creators) :
    cid ∈ (check_new_skins_for_user now feed st).known_creators := by
  unfold check_new_skins_for_user
  cases feed with
  | ok items => exact check_items_known_mono now items st cid h
  | status _ => exact h
  | transportError => exact h

theorem monitor_loop_known_mono (nowf : Nat → Int)
    (feedf : Nat → HttpResult (List (Item × ItemEnv))) (fuel : Nat) :
    ∀ st : BotState, ∀ cid ∈ st.known_creators,
      cid ∈ (monitor_loop nowf feedf fuel st).known_creators := by
  induction fuel with
  | zero => intro st cid h; exact h
  | succ n ih =>
    intro st cid h
    unfold monitor_loop
    split
    · exact ih _ _ (check_new_skins_known_mono _ _ _ _ h)
    · exact h

theorem record_opportunity_purchase_calls_test (st : BotState) (item : Item)
    (cid name : String) (env : ItemEnv) (h : st.session.test_mode = true) :
    (record_opportunity_for_user st item cid name env).purchase_calls
      = st.purchase_calls := by
  simp only [record_opportunity_for_user]
  split
  · rfl
  · rename_i hc
    exact absurd h hc

theorem process_item_purchase_calls_test (st : BotState) (item : Item)
    (env : ItemEnv) (now : Int) (h : st.session.test_mode = true) :
    (process_item_for_user st item env now).purchase_calls
      = st.purchase_calls := by
  simp only [process_item_for_user]
  split
  · rfl
  split
  · rfl
  split
  · rfl
  split
  · exact record_opportunity_purchase_calls_test _ _ _ _ _ h
  · rfl

theorem process_item_test_mode_eq (st : BotState) (item : Item)
    (env : ItemEnv) (now : Int) :
    (process_item_for_user st item env now).session.test_mode
      = st.session.test_mode := by
  rcases process_item_session_cases st item env now with h | h <;> rw [h]

theorem check_items_purchase_calls_test (now : Int)
    (items : List (Item × ItemEnv)) :
    ∀ st : BotState, st.session.test_mode = true →
      (check_items now items st).purchase_calls = st.purchase_calls := by
  induction items with
  | nil => intro st _; rfl
  | cons hd tl ih =>
    intro st h
    obtain ⟨item, env⟩ := hd
    simp only [check_items]
    split
    · have h1 : (process_item_for_user (markProcessed st item.id)
          item env now).session.test_mode = true := by
        rw [process_item_test_mode_eq]; exact h
      have h2 : (process_item_for_user (markProcessed st item.id)
          item env now).purchase_calls = st.purchase_calls :=
        process_item_purchase_calls_test _ _ _ _ h
      split
      · exact h2
      · rw [ih _ h1]; exact h2
    · exact ih st h

theorem process_item_session_fields (st : BotState) (item : Item)
    (env : ItemEnv) (now : Int) :
    (process_item_for_user st item env now).session.max_purchases
        = st.session.max_purchases ∧
    (process_item_for_user st item env now).session.purchased_count
        ≤ st.session.purchased_count + 1 ∧
    (process_item_for_user st item env now).session.processed_skins
        = st.session.processed_skins ∧
    (process_item_for_user st item env now).session.is_monitoring
        = st.session.is_monitoring := by
  rcases process_item_session_cases st item env now with h | h
  · rw [h]; exact ⟨rfl, Nat.le_succ _, rfl, rfl⟩
  · rw [h]; exact ⟨rfl, le_rfl, rfl, rfl⟩

theorem check_items_quota_bound (now : Int) (items : List (Item × ItemEnv)) :
    ∀ st : BotState,
      st.session.purchased_count < st.session.max_purchases →
      (check_items now items st).session.max_purchases
          = st.session.max_purchases ∧
      (check_items now items st).session.purchased_count
          ≤ st.session.max_purchases := by
  induction items with
  | nil => intro st h; exact ⟨rfl, le_of_lt h⟩
  | cons hd tl ih =>
    intro st h
    obtain ⟨item, env⟩ := hd
    simp only [check_items]
    split
    · have hf := process_item_session_fields (markProcessed st item.id) item env now
      have e1 : (markProcessed st item.id).session.max_purchases
          = st.session.max_purchases := rfl
      have e2 : (markProcessed st item.id).session.purchased_count
          = st.session.purchased_count := rfl
      have hmax := hf.1.trans e1
      have hcount := hf.2.1
      rw [e2] at hcount
      split
      · exact ⟨hmax, by omega⟩
      · rename_i hlt
        have h1 := not_le.mp hlt
        have h2 := ih _ h1
        exact ⟨h2.1.trans hmax, h2.2.trans (le_of_eq hmax)⟩
    · exact ih st h

theorem check_new_skins_quota_bound (now : Int)
    (feed : HttpResult (List (Item × ItemEnv))) (st : BotState)
    (h : st.session.purchased_count < st.session.max_purchases) :
    (check_new_skins_for_user now feed st).session.max_purchases
        = st.session.max_purchases ∧
    (check_new_skins_for_user now feed st).session.purchased_count
        ≤ st.session.max_purchases := by
  cases feed with
  | ok items => exact check_items_quota_bound now items st h
  | status _ => exact ⟨rfl, le_of_lt h⟩
  | transportError => exact ⟨rfl, le_of_lt h⟩

theorem monitor_loop_quota_bound (nowf : Nat → Int)
    (feedf : Nat → HttpResult (List (Item × ItemEnv))) (fuel : Nat) :
    ∀ st : BotState,
      st.session.purchased_count ≤ st.session.max_purchases →
      (monitor_loop nowf feedf fuel st).session.purchased_count
        ≤ (monitor_loop nowf feedf fuel st).session.max_purchases := by
  induction fuel with
  | zero => intro st h; exact h
  | succ n ih =>
    intro st h
    simp only [monitor_loop]
    split
    · rename_i hc
      have hb := check_new_skins_quota_bound (nowf n) (feedf n) st hc.2
      exact ih _ (hb.2.trans (le_of_eq hb.1.symm))
    · exact h

theorem monitor_loop_stopped (nowf : Nat → Int)
    (feedf : Nat → HttpResult (List (Item × ItemEnv))) (fuel : Nat)
    (st : BotState)
    (h : st.session.max_purchases ≤ st.session.purchased_count) :
    monitor_loop nowf feedf fuel st = st := by
  cases fuel with
  | zero => rfl
  | succ n =>
    have hn : ¬(st.session.is_monitoring = true ∧
        st.session.purchased_count < st.session.max_purchases) :=
      fun hc => absurd hc.2 (not_lt.mpr h)
    simp only [monitor_loop, if_neg hn]

theorem process_item_processed_eq (st : BotState) (item : Item)
    (env : ItemEnv) (now : Int) :
    (process_item_for_user st item env now).session.processed_skins
      = st.session.processed_skins :=
  (process_item_session_fields st item env now).2.2.1

theorem check_items_skip (now : Int) (item : Item) (env : ItemEnv)
    (rest : List (Item × ItemEnv)) (st : BotState)
    (h : item.id ∈ st.session.processed_skins) :
    check_items now ((item, env) :: rest) st = check_items now rest st := by
  simp only [check_items]
  rw [if_neg (fun hg => hg.2 h)]

theorem check_items_single_eval (now : Int) (item : Item) (env : ItemEnv)
    (st : BotState) (hne : item.id ≠ "")
    (hmem : item.id ∉ st.session.processed_skins) :
    check_items now [(item, env)] st
      = process_item_for_user (markProcessed st item.id) item env now := by
  simp only [check_items]
  rw [if_pos ⟨hne, hmem⟩]
  split <;> rfl

/-! ### Claim theorems -/

/-- C3: once a creator id has been recorded in the global novelty cache
(`add_creator_to_db`), every later first-time evaluation of that creator
returns `false`, and no operation of the monitoring core — the lookup
itself, recording an opportunity, evaluating an item, a feed batch, or any
run of the monitor loop — ever removes the creator from the cache, so a
creator never re-enters first-time status. The cache is a single global
set shared by all users. -/
theorem novelty_cache_one_way (cid : String) :
    (∀ name n known, cid ∈ add_creator_to_db cid name n known) ∧
    (∀ known name lk, cid ∈ known →
        (is_first_time_creator known cid name lk).1 = false) ∧
    (∀ known cid2 name n, cid ∈ known →
        cid ∈ add_creator_to_db cid2 name n known) ∧
    (∀ known cid2 name lk, cid ∈ known →
        cid ∈ (is_first_time_creator known cid2 name lk).2) ∧
    (∀ st item cid2 name env, cid ∈ st.known_creators →
        cid ∈ (record_opportunity_for_user st item cid2 name env).known_creators) ∧
    (∀ st item env now, cid ∈ st.known_creators →
        cid ∈ (process_item_for_user st item env now).known_creators) ∧
    (∀ now items st, cid ∈ st.known_creators →
        cid ∈ (check_items now items st).known_creators) ∧
    (∀ nowf feedf fuel st, cid ∈ st.known_creators →
        cid ∈ (monitor_loop nowf feedf fuel st).known_creators) := by
  refine ⟨fun name n known => self_mem_add_creator_to_db cid name n known,
    fun known name lk h => ?_,
    fun known cid2 name n h => mem_add_creator_to_db cid cid2 name n known h,
    fun known cid2 name lk h => is_first_time_creator_snd_mono known cid cid2 name lk h,
    fun st item cid2 name env h => ?_,
    fun st item env now h => process_item_known_mono st item env now cid h,
    fun now items st h => check_items_known_mono now items st cid h,
    fun nowf feedf fuel st h => monitor_loop_known_mono nowf feedf fuel st cid h⟩
  · rw [is_first_time_creator_of_mem known cid name lk h]
  · rw [record_opportunity_known_eq]
    exact mem_add_creator_to_db _ _ _ _ _ h

/-- Witness for C3 at a concrete cached creator. -/
theorem novelty_cache_one_way_witness :
    (is_first_time_creator ["777"] "777" "Ann"
      ⟨.status 404, .transportError⟩).1 = false :=
  (novelty_cache_one_way "777").2.1 ["777"] "Ann" _ (by simp)

/-- C4: whenever an item is accepted as a first-time-creator opportunity
(`record_opportunity_for_user` runs), the user's found-count is incremented
by exactly one and the creator is recorded in the global novelty cache, so
every later first-time evaluation of that creator (for any user — the
cache is global) returns `false`. -/
theorem record_opportunity_increments_and_disqualifies (st : BotState)
    (item : Item) (cid name : String) (env : ItemEnv) :
    (record_opportunity_for_user st item cid name env).session.purchased_count
      = st.session.purchased_count + 1 ∧
    cid ∈ (record_opportunity_for_user st item cid name env).known_creators ∧
    ∀ name2 lk, (is_first_time_creator
        (record_opportunity_for_user st item cid name env).known_creators
        cid name2 lk).1 = false := by
  have hmem : cid ∈ (record_opportunity_for_user st item cid name env).known_creators := by
    rw [record_opportunity_known_eq]
    exact self_mem_add_creator_to_db _ _ _ _
  refine ⟨by rw [record_opportunity_session_eq], hmem, fun name2 lk => ?_⟩
  rw [is_first_time_creator_of_mem _ _ _ _ hmem]

/-- C5: the item-age check uses `timeAccepted` when present else
`timeCreated`; when neither is present, or the used timestamp does not
parse, it rejects (fail closed); the comparison is inclusive: age exactly
`max_age_days` days is accepted and `max_age_days + 1` days is rejected. -/
theorem is_recent_item_boundary_and_fail_closed :
    (∀ d now, is_recent_item .absent .absent d now = false) ∧
    (∀ d now tc, is_recent_item .junk tc d now = false) ∧
    (∀ d now, is_recent_item .absent .junk d now = false) ∧
    (∀ d now t tc, is_recent_item (.valid t) tc d now
        = decide (now - t ≤ (d : Int) * 86400)) ∧
    (∀ d now t, is_recent_item .absent (.valid t) d now
        = decide (now - t ≤ (d : Int) * 86400)) ∧
    (∀ (d : Nat) (now : Int) tc,
        is_recent_item (.valid (now - (d : Int) * 86400)) tc d now = true) ∧
    (∀ (d : Nat) (now : Int) tc,
        is_recent_item (.valid (now - ((d : Int) + 1) * 86400)) tc d now = false) := by
  refine ⟨fun d now => rfl, fun d now tc => rfl, fun d now => rfl,
    fun d now t tc => rfl, fun d now t => rfl,
    fun d now tc => ?_, fun d now tc => ?_⟩
  · simp only [is_recent_item, TimeStr.orElse, decide_eq_true_eq]
    omega
  · simp only [is_recent_item, TimeStr.orElse, decide_eq_false_iff_not]
    omega

/-- C6: for a creator not in the novelty cache, a 404 profile lookup, any
other non-200 status, a transport error, and a failed item-count lookup
all yield the first-time verdict (fail open); the verdict is non-first-time
exactly when the item-count lookup returns 200 with `total > 1`, and in
that case the creator is recorded in the cache. -/
theorem is_first_time_creator_fail_open (known : List String)
    (cid name : String) (lk : CreatorLookup) (h : cid ∉ known) :
    (∀ c, lk.profileResp = .status c →
        is_first_time_creator known cid name lk = (true, known)) ∧
    (lk.profileResp = .transportError →
        is_first_time_creator known cid name lk = (true, known)) ∧
    (∀ c, lk.profileResp = .ok () → lk.itemCountResp = .status c →
        is_first_time_creator known cid name lk = (true, known)) ∧
    (lk.profileResp = .ok () → lk.itemCountResp = .transportError →
        is_first_time_creator known cid name lk = (true, known)) ∧
    (∀ n, lk.profileResp = .ok () → lk.itemCountResp = .ok n → n ≤ 1 →
        is_first_time_creator known cid name lk = (true, known)) ∧
    (∀ n, lk.profileResp = .ok () → lk.itemCountResp = .ok n → 1 < n →
        is_first_time_creator known cid name lk
          = (false, add_creator_to_db cid name n known)) ∧
    ((is_first_time_creator known cid name lk).1 = false ↔
        lk.profileResp = .ok () ∧ ∃ n, lk.itemCountResp = .ok n ∧ 1 < n) := by
  rcases lk with ⟨p, i⟩
  cases p <;> cases i <;> simp_all [is_first_time_creator]
  all_goals split <;> simp_all

/-- Witness for C6: an uncached creator whose profile lookup answers 404 is
treated as first-time. -/
theorem is_first_time_creator_fail_open_witness :
    is_first_time_creator [] "777" "Ann" ⟨.status 404, .transportError⟩
      = (true, []) :=
  (is_first_time_creator_fail_open [] "777" "Ann"
    ⟨.status 404, .transportError⟩ (by simp)).1 404 rfl

/-- C1: in the per-item loop of `check_new_skins_for_user`, an item whose id
is already in the user's `processed_skins` is skipped as a complete no-op
(state unchanged: no OpportunityRecord row, no notification); an unseen item
with a truthy id is evaluated only after its id is added to
`processed_skins`, and after the evaluation — whatever its outcome — the id
is in `processed_skins` (the evaluator itself never changes the set), so a
second evaluation of the same `(user, item)` pair is a no-op rejection. -/
theorem dedup_idempotent_and_marked_first :
    (∀ now item env st, item.id ∈ st.session.processed_skins →
        check_items now [(item, env)] st = st) ∧
    (∀ now item env rest st, item.id ∈ st.session.processed_skins →
        check_items now ((item, env) :: rest) st = check_items now rest st) ∧
    (∀ now item env st, item.id ≠ "" → item.id ∉ st.session.processed_skins →
        check_items now [(item, env)] st
          = process_item_for_user (markProcessed st item.id) item env now) ∧
    (∀ now item env st, item.id ≠ "" →
        item.id ∈ (check_items now [(item, env)] st).session.processed_skins) ∧
    (∀ st item env now,
        (process_item_for_user st item env now).session.processed_skins
          = st.session.processed_skins) := by
  refine ⟨fun now item env st h => check_items_skip now item env [] st h,
    fun now item env rest st h => check_items_skip now item env rest st h,
    fun now item env st hne hmem => check_items_single_eval now item env st hne hmem,
    fun now item env st hne => ?_,
    fun st item env now => process_item_processed_eq st item env now⟩
  by_cases hmem : item.id ∈ st.session.processed_skins
  · rw [check_items_skip now item env [] st hmem]
    exact hmem
  · rw [check_items_single_eval now item env st hne hmem,
      process_item_processed_eq]
    exact List.mem_cons_self _ _

/-- Witness for C1: re-evaluating an already-processed item id is a no-op. -/
theorem dedup_idempotent_and_marked_first_witness :
    check_items 0 [(sampleItem, sampleEnv)] processedState = processedState :=
  dedup_idempotent_and_marked_first.1 0 sampleItem sampleEnv processedState
    (by decide)

/-- C2: `purchased_count` never exceeds `max_purchases`: any run of the
monitor loop starting with `purchased_count ≤ max_purchases` ends with
`purchased_count ≤ max_purchases`; once `max_purchases ≤ purchased_count`
the loop exits at once without evaluating any item; and inside a feed batch
the per-item loop breaks as soon as the quota is reached, leaving the rest
of the batch unevaluated. -/
theorem quota_never_exceeded (nowf : Nat → Int)
    (feedf : Nat → HttpResult (List (Item × ItemEnv))) :
    (∀ fuel st, st.session.purchased_count ≤ st.session.max_purchases →
        (monitor_loop nowf feedf fuel st).session.purchased_count
          ≤ (monitor_loop nowf feedf fuel st).session.max_purchases) ∧
    (∀ fuel st, st.session.max_purchases ≤ st.session.purchased_count →
        monitor_loop nowf feedf fuel st = st) ∧
    (∀ now item env rest st,
        (item.id ≠ "" ∧ item.id ∉ st.session.processed_skins) →
        (process_item_for_user (markProcessed st item.id)
            item env now).session.max_purchases
          ≤ (process_item_for_user (markProcessed st item.id)
            item env now).session.purchased_count →
        check_items now ((item, env) :: rest) st
          = process_item_for_user (markProcessed st item.id) item env now) := by
  refine ⟨fun fuel st h => monitor_loop_quota_bound nowf feedf fuel st h,
    fun fuel st h => monitor_loop_stopped nowf feedf fuel st h,
    fun now item env rest st hg hq => ?_⟩
  simp only [check_items]
  rw [if_pos hg, if_pos hq]

/-- Witness for C2 at a fresh user state with an always-failing feed. -/
theorem quota_never_exceeded_witness :
    (monitor_loop (fun _ => 0) (fun _ => .transportError) 3
        initState).session.purchased_count
      ≤ (monitor_loop (fun _ => 0) (fun _ => .transportError) 3
        initState).session.max_purchases :=
  (quota_never_exceeded (fun _ => 0) (fun _ => .transportError)).1 3 initState
    (by decide)

/-- C7: for a test-mode session, neither recording an accepted opportunity
nor running a whole feed batch ever calls the real purchase collaborator
`attempt_steam_purchase` (the call counter is unchanged), for every item,
price, auto-purchase setting, and collaborator behaviour. -/
theorem test_mode_never_invokes_purchase (st : BotState)
    (h : st.session.test_mode = true) :
    (∀ item cid name env,
        (record_opportunity_for_user st item cid name env).purchase_calls
          = st.purchase_calls) ∧
    (∀ now items,
        (check_items now items st).purchase_calls = st.purchase_calls) :=
  ⟨fun item cid name env =>
      record_opportunity_purchase_calls_test st item cid name env h,
    fun now items => check_items_purchase_calls_test now items st h⟩

/-- Witness for C7: a concrete test-mode acceptance makes zero calls to the
purchase collaborator. -/
theorem test_mode_never_invokes_purchase_witness :
    (record_opportunity_for_user testModeState sampleItem "777" "Ann"
        sampleEnv).purchase_calls = 0 :=
  (test_mode_never_invokes_purchase testModeState rfl).1 sampleItem "777" "Ann"
    sampleEnv

/-- C10: every OpportunityRecord row written by a test-mode evaluation
carries `success = false`, independent of the item's price, the
auto-purchase setting, and the purchase collaborator's behaviour. -/
theorem test_mode_record_success_false (st : BotState) (item : Item)
    (cid name : String) (env : ItemEnv) (h : st.session.test_mode = true) :
    (record_opportunity_for_user st item cid name env).purchases
      = st.purchases ++ [⟨item.id, cid, false⟩] := by
  simp only [record_opportunity_for_user]
  split
  · rfl
  · rename_i hc
    exact absurd h hc

/-- Witness for C10 at a concrete test-mode acceptance. -/
theorem test_mode_record_success_false_witness :
    (record_opportunity_for_user testModeState sampleItem "777" "Ann"
        sampleEnv).purchases
      = [{ skin_id := "101", creator_id := "777", success := false }] :=
  test_mode_record_success_false testModeState sampleItem "777" "Ann" sampleEnv
    rfl

/-- C8 counterexample: a test-mode user with no credential token, not
monitoring and with quota available, is nonetheless rejected by the
`/monitor` command for the missing token (while the inline start accepts
the same session) — so "a user with testModeEnabled true may start without
a token" is false for `start_monitoring_command`. -/
theorem start_command_test_mode_counterexample :
    start_monitoring_command { defaultSession with test_mode := true }
        = .rejectedNoToken ∧
    (start_monitoring_command
        { defaultSession with test_mode := true }).isStarted = false ∧
    (start_monitoring_inline
        { defaultSession with test_mode := true }).isStarted = true := by
  decide

/-- C8 (amended): both start entry points reject when already monitoring and
when the quota is exhausted, and otherwise set `is_monitoring` and spawn the
single loop task; the missing-token rejection is waived for test mode only
by the inline start, while the `/monitor` command demands a token in every
mode. -/
theorem start_monitoring_spec (s : Session) :
    ((start_monitoring_command s).isStarted = true ↔
        tokenTruthy s.steam_session_token = true ∧ s.is_monitoring = false ∧
        s.purchased_count < s.max_purchases) ∧
    ((start_monitoring_inline s).isStarted = true ↔
        (s.test_mode = true ∨ tokenTruthy s.steam_session_token = true) ∧
        s.is_monitoring = false ∧ s.purchased_count < s.max_purchases) ∧
    (∀ r, start_monitoring_command s = .started r →
        r = { s with is_monitoring := true }) ∧
    (∀ r, start_monitoring_inline s = .started r →
        r = { s with is_monitoring := true }) := by
  cases htk : tokenTruthy s.steam_session_token <;>
    cases hm : s.is_monitoring <;>
    cases htm : s.test_mode <;>
    by_cases hq : s.max_purchases ≤ s.purchased_count <;>
    simp_all [start_monitoring_command, start_monitoring_inline,
      StartResult.isStarted]
  all_goals
    first
    | omega
    | (rw [if_neg (not_le.mpr hq)]
       exact ⟨rfl, fun r hr => by cases hr; rfl⟩)

/-- Witness for C8 (amended): a live-mode user with a token starts. -/
theorem start_monitoring_spec_witness :
    (start_monitoring_command
        { defaultSession with steam_session_token := some "tok" }).isStarted
      = true :=
  (start_monitoring_spec
    { defaultSession with steam_session_token := some "tok" }).1.mpr
    ⟨rfl, rfl, by decide⟩

/-- C9: whatever way the monitor loop terminates — normal stop, quota
exhaustion, cancellation, or an unhandled error — the `finally`-style
teardown leaves `is_monitoring = false`; an unhandled error additionally
notifies the user with the error text. The teardown returns a final state:
no path restarts the loop. -/
theorem monitor_teardown_resets_flag :
    (∀ e s, (monitor_teardown e s).1 = { s with is_monitoring := false }) ∧
    (∀ e s, (monitor_teardown e s).1.is_monitoring = false) ∧
    (∀ m s, ("Monitoring error: " ++ m ++ "\nTry restarting with /monitor")
        ∈ (monitor_teardown (.error m) s).2) := by
  refine ⟨fun e s => rfl, fun e s => rfl, fun m s => ?_⟩
  simp only [monitor_teardown]
  split
  · exact List.mem_append_left _ (List.mem_singleton.mpr rfl)
  · exact List.mem_singleton.mpr rfl

end RustSkinBot
